import Mathlib

/-!
Verification of the progress-tracking core of the MobileReadingApp repository.

The repository is a React Native reading app. The progress core lives in:
  * `screens/BookReaderScreen.js` (src/unnamed/part_000): `loadProgress`,
    `saveProgress`, `updateProgress`, `handlePageUpdate`, `handleBookCompletion`;
  * `data/books.js`: the static catalog and `checkAllIntensiveBooksCompleted`;
  * `screens/HomeScreen.js`: `checkExtensiveLearningStatus`;
  * `screens/IntensiveBooksScreen.js`: `getBookProgress`, `getProgressPercentage`;
  * `screens/ProfileScreen.js`: `calculateStats` (totalPagesRead), `handleResetProgress`.

Modelling conventions:
  * The AsyncStorage item under key `progress_grade_<grade>` is modelled, already
    parsed, as `Option GradeProgress`; `none` is a missing key (`getItem` → null).
  * A parsed JSON progress object is an association list with unique-by-construction
    first-occurrence semantics: property read is first-match lookup, property write
    replaces the first match or appends (`lookupRecord` / `setRecord`).
  * JS async functions in this code never reject: every body is wrapped in
    try/catch and the catch only logs.  Their outcome is modelled by
    `PromiseResult`, whose `rejected` constructor records what an error signalled
    to the caller would look like; the source never produces it.
  * Storage-backend failure (`AsyncStorage.setItem` throwing) is modelled by a
    boolean `setOk` parameter: when `setOk = false` the stored item is unchanged
    and control lands in the catch block, which logs and resolves normally.
  * `Math.round(x)` for `x ≥ 0` is `⌊x + 1/2⌋`; for the exact rational
    `100 * p / t` this is `(200 * p + t) / (2 * t)` in natural division.
  * Timestamps (`new Date().toISOString()`) are an opaque `String` argument `now`.
-/

namespace MobileReadingApp

/-- A quiz question record from `data/books.js` (extensive books only). -/
structure QuizQuestion where
  id : String
  question : String
  options : List String
  correctAnswer : Nat
deriving DecidableEq, Repr

/-- A catalog book record from `data/books.js`. -/
structure Book where
  id : String
  title : String
  grade : Nat
  bookType : String
  pdfUrl : String
  totalPages : Nat
  completed : Bool
  quizQuestions : List QuizQuestion
deriving DecidableEq, Repr

/-- One stored progress record, as written by `saveProgress` in
`BookReaderScreen.js`: `{currentPage, totalPages, completed, lastRead,
bookTitle, bookType}`. -/
structure ProgressRecord where
  currentPage : Nat
  totalPages : Nat
  completed : Bool
  lastRead : String
  bookTitle : String
  bookType : String
deriving DecidableEq, Repr

/-- The parsed JSON object stored under `progress_grade_<grade>`: a mapping
from book id to progress record, modelled as an association list. -/
abbrev GradeProgress := List (String × ProgressRecord)

/-- JS object property read: first matching key. -/
def lookupRecord : GradeProgress → String → Option ProgressRecord
  | [], _ => none
  | kv :: rest, key => if kv.1 = key then some kv.2 else lookupRecord rest key

/-- JS object property write `obj[key] = r`: replace the first matching key,
or append when absent. -/
def setRecord : GradeProgress → String → ProgressRecord → GradeProgress
  | [], key, r => [(key, r)]
  | kv :: rest, key, r => if kv.1 = key then (key, r) :: rest else kv :: setRecord rest key r

/-- Outcome of a JS promise as seen by an awaiting caller: it either fulfills
with a value or rejects with an error. -/
inductive PromiseResult (ε : Type) (α : Type) where
  | fulfilled (value : α)
  | rejected (error : ε)
deriving DecidableEq, Repr

/-- The error taxonomy named by the specification for the progress engine. -/
inductive AppError where
  | unknownBook
  | pageOutOfRange
  | storageUnavailable
deriving DecidableEq, Repr

/-! ## Catalog (`data/books.js`) -/

def grade1_intensive_1 : Book :=
  ⟨"grade1_intensive_1", "The Cat and the Hat", 1, "intensive",
    "https://www.africau.edu/images/default/sample.pdf", 10, false, []⟩

def grade1_intensive_2 : Book :=
  ⟨"grade1_intensive_2", "Simple Stories", 1, "intensive",
    "https://www.africau.edu/images/default/sample.pdf", 8, false, []⟩

def grade1_extensive_1 : Book :=
  ⟨"grade1_extensive_1", "Fun Reading Adventures", 1, "extensive",
    "https://www.africau.edu/images/default/sample.pdf", 15, false,
    [⟨"q1", "What color was the main character?",
       ["Red", "Blue", "Green", "Yellow"], 0⟩,
     ⟨"q2", "Where did the story take place?",
       ["School", "Home", "Park", "Store"], 2⟩]⟩

def grade2_intensive_1 : Book :=
  ⟨"grade2_intensive_1", "Amazing Animals", 2, "intensive",
    "https://www.africau.edu/images/default/sample.pdf", 12, false, []⟩

def grade2_extensive_1 : Book :=
  ⟨"grade2_extensive_1", "Nature Wonders", 2, "extensive",
    "https://www.africau.edu/images/default/sample.pdf", 18, false,
    [⟨"q1", "How many types of trees were mentioned?",
       ["2", "3", "4", "5"], 1⟩]⟩

/-- `booksData`: the static catalog object, keyed by grade; each grade holds an
`intensive` and an `extensive` list.  Grades other than 1 and 2 are absent. -/
def booksData : Nat → Option (List Book × List Book)
  | 1 => some ([grade1_intensive_1, grade1_intensive_2], [grade1_extensive_1])
  | 2 => some ([grade2_intensive_1], [grade2_extensive_1])
  | _ => none

/-- `getBooksByGrade(grade)`: `booksData[grade] || {intensive: [], extensive: []}`. -/
def getBooksByGrade (grade : Nat) : List Book × List Book :=
  (booksData grade).getD ([], [])

/-- `getIntensiveBooks(grade)`: `getBooksByGrade(grade).intensive || []`. -/
def getIntensiveBooks (grade : Nat) : List Book :=
  (getBooksByGrade grade).1

/-- `getExtensiveBooks(grade)`: `getBooksByGrade(grade).extensive || []`. -/
def getExtensiveBooks (grade : Nat) : List Book :=
  (getBooksByGrade grade).2

/-- `checkAllIntensiveBooksCompleted(grade, progressData)` from `data/books.js`:
false on an empty intensive list, else `every` book has a truthy record whose
`completed` is truthy. -/
def checkAllIntensiveBooksCompleted (grade : Nat) (progressData : GradeProgress) : Bool :=
  let intensiveBooks := getIntensiveBooks grade
  if intensiveBooks.length = 0 then false
  else intensiveBooks.all fun book =>
    match lookupRecord progressData book.id with
    | some bookProgress => bookProgress.completed
    | none => false

/-! ## BookReaderScreen (`src/unnamed/part_000`) -/

/-- `saveProgress(page, completed)` from `BookReaderScreen.js` lines 62–81.
It re-reads the stored item (`AsyncStorage.getItem`), parses it (`{}` when
absent), overwrites the entry for `book.id`, and writes the whole mapping back.
`setOk` models whether `AsyncStorage.setItem` succeeds; when it throws, the
catch block logs (`console.error`) and the async function still resolves, so
the promise outcome is `fulfilled ()` in every case. -/
def saveProgress (setOk : Bool) (book : Book) (bookType : String) (totalPages : Nat)
    (now : String) (page : Nat) (completed : Bool) (item : Option GradeProgress) :
    PromiseResult AppError Unit × Option GradeProgress :=
  let progressData := item.getD []
  let progressData :=
    setRecord progressData book.id ⟨page, totalPages, completed, now, book.title, bookType⟩
  if setOk then (.fulfilled (), some progressData) else (.fulfilled (), item)

/-- `handlePageUpdate(page)` from `BookReaderScreen.js` lines 106–116, with the
`handleBookCompletion` write (lines 119–139) inlined: if the page is out of
range the function returns at once (no save, no error); otherwise it saves
`(page, completed: false)`, and when `page === totalPages` the completion
handler additionally saves `(totalPages, completed: true)`. -/
def handlePageUpdate (setOk : Bool) (book : Book) (bookType : String) (totalPages : Nat)
    (now : String) (page : Nat) (item : Option GradeProgress) :
    PromiseResult AppError Unit × Option GradeProgress :=
  if page < 1 ∨ totalPages < page then (.fulfilled (), item)
  else
    let r := saveProgress setOk book bookType totalPages now page false item
    if page = totalPages then
      saveProgress setOk book bookType totalPages now totalPages true r.2
    else r

/-- Reading one book's record from the stored item, as `loadProgress`
(lines 42–59) does: a missing item yields no record, otherwise the parsed
object is indexed at `book.id`. -/
def readStoredRecord (item : Option GradeProgress) (bookId : String) :
    Option ProgressRecord :=
  match item with
  | some progressData => lookupRecord progressData bookId
  | none => none

/-! ## HomeScreen -/

/-- `checkExtensiveLearningStatus(grade)` from `HomeScreen.js` lines 55–77.
`storageFailed` models `AsyncStorage.getItem` (or `JSON.parse`) throwing: the
catch block logs and returns `false`.  Otherwise: a missing item returns
`false`; an empty intensive list returns `false`; else `every` intensive book
must have a truthy record with truthy `completed`.  The function never
rejects. -/
def checkExtensiveLearningStatus (storageFailed : Bool) (grade : Nat)
    (item : Option GradeProgress) : PromiseResult AppError Bool :=
  if storageFailed then .fulfilled false
  else
    match item with
    | some parsedProgress =>
        let intensiveBooks := getIntensiveBooks grade
        if intensiveBooks.length = 0 then .fulfilled false
        else .fulfilled (intensiveBooks.all fun book =>
          match lookupRecord parsedProgress book.id with
          | some bookProgress => bookProgress.completed
          | none => false)
    | none => .fulfilled false

/-! ## IntensiveBooksScreen -/

/-- `getBookProgress(bookId)` from `IntensiveBooksScreen.js`:
`progress[bookId] || {currentPage: 0, completed: false, totalPages: 0}`
(the default's remaining fields are absent in JS; modelled as ""). -/
def getBookProgress (progress : GradeProgress) (bookId : String) : ProgressRecord :=
  (lookupRecord progress bookId).getD ⟨0, 0, false, "", "", ""⟩

/-- `getProgressPercentage(bookId, totalPages)` from `IntensiveBooksScreen.js`
lines 73–77: 100 when the record is completed, else
`Math.round((currentPage / totalPages) * 100)` when `totalPages > 0`, else 0.
`Math.round` of the exact rational `100 p / t` is `(200 p + t) / (2 t)`. -/
def getProgressPercentage (progress : GradeProgress) (bookId : String)
    (totalPages : Nat) : Nat :=
  let bookProgress := getBookProgress progress bookId
  if bookProgress.completed then 100
  else if 0 < totalPages then
    (200 * bookProgress.currentPage + totalPages) / (2 * totalPages)
  else 0

/-! ## ProfileScreen -/

/-- The `totalPagesRead` accumulation from `calculateStats` in
`ProfileScreen.js` lines 76–109: `Object.values(progressData)` folded with
`totalPagesRead += bookProgress.currentPage || 0`. -/
def totalPagesRead (progressData : GradeProgress) : Nat :=
  progressData.foldl (fun acc kv => acc + kv.2.currentPage) 0

/-- The confirmed branch of `handleResetProgress` in `ProfileScreen.js`
lines 136–159: `AsyncStorage.removeItem(progress_grade_<grade>)`, which leaves
no stored item for the grade. -/
def handleResetProgress (_item : Option GradeProgress) : Option GradeProgress :=
  none

/-! ## Association-list lemmas -/

theorem lookupRecord_setRecord_self (p : GradeProgress) (k : String) (r : ProgressRecord) :
    lookupRecord (setRecord p k r) k = some r := by
  induction p with
  | nil => simp [setRecord, lookupRecord]
  | cons kv rest ih =>
      by_cases h : kv.1 = k
      · simp [setRecord, lookupRecord, h]
      · simp [setRecord, lookupRecord, h, ih]

theorem lookupRecord_setRecord_ne (p : GradeProgress) (k k' : String) (r : ProgressRecord)
    (h : k' ≠ k) : lookupRecord (setRecord p k r) k' = lookupRecord p k' := by
  induction p with
  | nil => simp [setRecord, lookupRecord, Ne.symm h]
  | cons kv rest ih =>
      by_cases hk : kv.1 = k
      · simp [setRecord, lookupRecord, hk, Ne.symm h]
      · simp [setRecord, lookupRecord, hk, ih]

theorem foldl_pages (p : GradeProgress) (n : Nat) :
    p.foldl (fun acc kv => acc + kv.2.currentPage) n
      = n + (p.map fun kv => kv.2.currentPage).sum := by
  induction p generalizing n with
  | nil => simp
  | cons kv rest ih => simp [List.foldl_cons, ih, Nat.add_assoc]

theorem totalPagesRead_eq_sum (p : GradeProgress) :
    totalPagesRead p = (p.map fun kv => kv.2.currentPage).sum := by
  simpa using foldl_pages p 0

theorem totalPagesRead_setRecord (p : GradeProgress) (k : String)
    (r r' : ProgressRecord) (h : lookupRecord p k = some r) :
    totalPagesRead (setRecord p k r') + r.currentPage
      = totalPagesRead p + r'.currentPage := by
  induction p with
  | nil => simp [lookupRecord] at h
  | cons kv rest ih =>
      by_cases hk : kv.1 = k
      · have hr : kv.2 = r := by
          simpa [lookupRecord, hk] using h
        subst hr
        simp [setRecord, hk, totalPagesRead_eq_sum]
        omega
      · have h' : lookupRecord rest k = some r := by
          simpa [lookupRecord, hk] using h
        have := ih h'
        simp [setRecord, hk, totalPagesRead_eq_sum] at this ⊢
        omega

/-! ## Behaviour of a valid page update -/

theorem handlePageUpdate_valid_store (book : Book) (bookType : String)
    (totalPages : Nat) (now : String) (page : Nat) (item : Option GradeProgress)
    (h1 : 1 ≤ page) (h2 : page ≤ totalPages) :
    readStoredRecord (handlePageUpdate true book bookType totalPages now page item).2 book.id
      = some ⟨page, totalPages, decide (page = totalPages), now, book.title, bookType⟩ := by
  have hp0 : ¬ page = 0 := by omega
  have hlt : ¬ totalPages < page := by omega
  by_cases hpt : page = totalPages
  · subst hpt
    simp [handlePageUpdate, saveProgress, hp0, hlt, readStoredRecord,
      lookupRecord_setRecord_self]
  · simp [handlePageUpdate, saveProgress, hp0, hlt, hpt, readStoredRecord,
      lookupRecord_setRecord_self]

theorem completed_lookup_iff (pd : GradeProgress) (b : String) :
    (match lookupRecord pd b with
     | some bookProgress => bookProgress.completed
     | none => false) = true
      ↔ ∃ r, lookupRecord pd b = some r ∧ r.completed = true := by
  cases h : lookupRecord pd b <;> simp [h]

/-! ## Claim C1 -/

/-- Claim C1, as stated, is false on the code: a stored record with
`completed = true` for "The Cat and the Hat" (10 pages), hit by the single
valid page update `handlePageUpdate(5)` (no reset in between), ends with
`completed = false`, because `handlePageUpdate` always calls
`saveProgress(page, false)`. -/
theorem c1_counterexample :
    (readStoredRecord
        (some [("grade1_intensive_1",
          ⟨10, 10, true, "2024-01-01T00:00:00.000Z", "The Cat and the Hat", "intensive"⟩)])
        "grade1_intensive_1").map ProgressRecord.completed = some true
    ∧ (readStoredRecord
        (handlePageUpdate true grade1_intensive_1 "intensive" 10 "2024-01-02T00:00:00.000Z" 5
          (some [("grade1_intensive_1",
            ⟨10, 10, true, "2024-01-01T00:00:00.000Z", "The Cat and the Hat", "intensive"⟩)])).2
        "grade1_intensive_1").map ProgressRecord.completed = some false
    ∧ 1 ≤ 5 ∧ 5 ≤ 10 := by decide

/-- Claim C1 (corrected): `completed` is not monotonic.  After any valid page
update (`1 ≤ page ≤ totalPages`) the stored record's `completed` flag equals
`page = totalPages`, regardless of its previous value: an update below the
last page overwrites a previously-true `completed` with `false`. -/
theorem c1_completed_not_monotonic (book : Book) (bookType : String) (totalPages : Nat)
    (now : String) (page : Nat) (item : Option GradeProgress)
    (h1 : 1 ≤ page) (h2 : page ≤ totalPages) :
    readStoredRecord (handlePageUpdate true book bookType totalPages now page item).2 book.id
      = some ⟨page, totalPages, decide (page = totalPages), now, book.title, bookType⟩ :=
  handlePageUpdate_valid_store book bookType totalPages now page item h1 h2

/-- Witness for C1's theorem at a concrete input. -/
theorem c1_witness :
    readStoredRecord (handlePageUpdate true grade1_intensive_1 "intensive" 10 "t1" 5
        (some [])).2 "grade1_intensive_1"
      = some ⟨5, 10, false, "t1", "The Cat and the Hat", "intensive"⟩ :=
  c1_completed_not_monotonic grade1_intensive_1 "intensive" 10 "t1" 5 (some [])
    (by decide) (by decide)

/-! ## Claim C2 -/

/-- Claim C2: the tier-unlock check returns true iff the grade's intensive
book list is non-empty and every intensive book has a stored record with
`completed = true`; and `checkExtensiveLearningStatus` (with working storage
and a present item) agrees with `checkAllIntensiveBooksCompleted`. -/
theorem c2_tier_unlock_iff (grade : Nat) (progressData : GradeProgress) :
    (checkAllIntensiveBooksCompleted grade progressData = true
      ↔ getIntensiveBooks grade ≠ []
        ∧ ∀ b ∈ getIntensiveBooks grade,
            ∃ r, lookupRecord progressData b.id = some r ∧ r.completed = true)
    ∧ checkExtensiveLearningStatus false grade (some progressData)
        = .fulfilled (checkAllIntensiveBooksCompleted grade progressData) := by
  constructor
  · unfold checkAllIntensiveBooksCompleted
    by_cases hL : (getIntensiveBooks grade).length = 0
    · simp [hL, List.length_eq_zero.mp hL]
    · have hne : getIntensiveBooks grade ≠ [] := by
        intro hnil
        exact hL (by simp [hnil])
      simp only [hL, if_false, List.all_eq_true, hne, ne_eq, not_false_iff, true_and]
      constructor
      · intro h b hb
        exact (completed_lookup_iff progressData b.id).mp (h b hb)
      · intro h b hb
        exact (completed_lookup_iff progressData b.id).mpr (h b hb)
  · unfold checkExtensiveLearningStatus checkAllIntensiveBooksCompleted
    by_cases hL : (getIntensiveBooks grade).length = 0 <;> simp [hL]

/-! ## Claim C3 -/

/-- Claim C3, as stated, is false on the code: the out-of-range update
`handlePageUpdate(0)` does leave the stored record unchanged, but it does not
fail with a `PageOutOfRange` error — the promise fulfills with no error. -/
theorem c3_counterexample :
    handlePageUpdate true grade1_intensive_1 "intensive" 10 "t1" 0
        (some [("grade1_intensive_1", ⟨5, 10, false, "t0", "The Cat and the Hat", "intensive"⟩)])
      = (.fulfilled (),
         some [("grade1_intensive_1", ⟨5, 10, false, "t0", "The Cat and the Hat", "intensive"⟩)])
    ∧ (handlePageUpdate true grade1_intensive_1 "intensive" 10 "t1" 0
        (some [("grade1_intensive_1", ⟨5, 10, false, "t0", "The Cat and the Hat", "intensive"⟩)])).1
      ≠ PromiseResult.rejected AppError.pageOutOfRange := by decide

/-- Claim C3 (corrected): an out-of-range page update is silently ignored —
the call resolves without any error being reported to the caller, and the
stored mapping (hence the stored record for the book) is unchanged. -/
theorem c3_out_of_range_silent (setOk : Bool) (book : Book) (bookType : String)
    (totalPages : Nat) (now : String) (page : Nat) (item : Option GradeProgress)
    (h : page < 1 ∨ totalPages < page) :
    handlePageUpdate setOk book bookType totalPages now page item
      = (.fulfilled (), item) := by
  unfold handlePageUpdate
  rw [if_pos h]

/-- Witness for C3's theorem at a concrete input. -/
theorem c3_witness :
    ((0:Nat) < 1 ∨ (10:Nat) < 0)
    ∧ handlePageUpdate true grade1_intensive_1 "intensive" 10 "t1" 0 none
        = (.fulfilled (), none) :=
  ⟨Or.inl (by decide),
   c3_out_of_range_silent true grade1_intensive_1 "intensive" 10 "t1" 0 none
     (Or.inl (by decide))⟩

/-! ## Claim C4 -/

/-- Claim C4, as stated, is false on the code: the derived percentage uses
`Math.round`, not `floor` — for `currentPage = 1, totalPages = 8` the code
yields 13 while `floor(100 * 1 / 8) = 12`; and it yields 100 on a record at
the last page whose `completed` flag is still false, so 100 does not occur
exactly when `completed = true`. -/
theorem c4_counterexample :
    getProgressPercentage
        [("grade1_intensive_2", ⟨1, 8, false, "t0", "Simple Stories", "intensive"⟩)]
        "grade1_intensive_2" 8 = 13
    ∧ 100 * 1 / 8 = 12
    ∧ getProgressPercentage
        [("grade1_intensive_2", ⟨8, 8, false, "t0", "Simple Stories", "intensive"⟩)]
        "grade1_intensive_2" 8 = 100 := by decide

/-- Claim C4 (corrected): the derived percentage is 100 if the record is
completed, else `Math.round(100 * currentPage / totalPages)` — that is,
`(200 * currentPage + totalPages) / (2 * totalPages)` — when `totalPages > 0`,
and 0 when `totalPages = 0`; it is bounded by 100 whenever
`currentPage ≤ totalPages` (and trivially ≥ 0), and equals 100 whenever
`completed = true` (though not only then). -/
theorem c4_percentage_round (progress : GradeProgress) (bookId : String) (totalPages : Nat)
    (h : (getBookProgress progress bookId).currentPage ≤ totalPages) :
    getProgressPercentage progress bookId totalPages ≤ 100
    ∧ ((getBookProgress progress bookId).completed = true →
        getProgressPercentage progress bookId totalPages = 100)
    ∧ ((getBookProgress progress bookId).completed = false → 0 < totalPages →
        getProgressPercentage progress bookId totalPages
          = (200 * (getBookProgress progress bookId).currentPage + totalPages)
              / (2 * totalPages))
    ∧ ((getBookProgress progress bookId).completed = false → totalPages = 0 →
        getProgressPercentage progress bookId totalPages = 0) := by
  cases hc : (getBookProgress progress bookId).completed with
  | true => simp [getProgressPercentage, hc]
  | false =>
      rcases Nat.eq_zero_or_pos totalPages with ht | ht
      · subst ht
        simp [getProgressPercentage, hc]
      · have h2t : 0 < 2 * totalPages := by omega
        have hlt : 200 * (getBookProgress progress bookId).currentPage + totalPages
            < 101 * (2 * totalPages) := by omega
        have hb := (Nat.div_lt_iff_lt_mul h2t).mpr hlt
        simp [getProgressPercentage, hc, ht]
        omega

/-- Witness for C4's theorem at a concrete input. -/
theorem c4_witness :
    (getBookProgress [] "grade1_intensive_1").currentPage ≤ 10
    ∧ getProgressPercentage [] "grade1_intensive_1" 10 ≤ 100 :=
  ⟨by decide, (c4_percentage_round [] "grade1_intensive_1" 10 (by decide)).1⟩

/-! ## Claim C5 -/

/-- Claim C5, as stated, is false on the code: with the storage backend
failing, `saveProgress` still fulfills (the catch block only logs), so the
failed write is reported to the caller exactly like a success, not as a
`StorageUnavailable` error. -/
theorem c5_counterexample :
    saveProgress false grade1_intensive_1 "intensive" 10 "t1" 5 false none
      = (.fulfilled (), none)
    ∧ (saveProgress false grade1_intensive_1 "intensive" 10 "t1" 5 false none).1
      ≠ PromiseResult.rejected AppError.storageUnavailable := by decide

/-- Claim C5 (corrected): when the persistence backend fails, `saveProgress`
catches the error and logs it; the call resolves as a success
indistinguishable from a completed write, the stored mapping is unchanged,
and no `StorageUnavailable` error reaches the caller — the failure is
silently swallowed. -/
theorem c5_storage_failure_swallowed (book : Book) (bookType : String) (totalPages : Nat)
    (now : String) (page : Nat) (completed : Bool) (item : Option GradeProgress) :
    saveProgress false book bookType totalPages now page completed item
      = (.fulfilled (), item) := by
  simp [saveProgress]

/-! ## Claim C6 -/

/-- Claim C6: `saveProgress` changes only the entry for the written book id —
every other book id reads the same after the put as in the stored mapping read
immediately before merging (and a failed write changes nothing at all). -/
theorem c6_saveProgress_frame (setOk : Bool) (book : Book) (bookType : String)
    (totalPages : Nat) (now : String) (page : Nat) (completed : Bool)
    (item : Option GradeProgress) (k : String) (h : k ≠ book.id) :
    readStoredRecord (saveProgress setOk book bookType totalPages now page completed item).2 k
      = readStoredRecord item k := by
  cases setOk with
  | false => simp [saveProgress]
  | true =>
      cases item with
      | none =>
          simp [saveProgress, readStoredRecord, lookupRecord_setRecord_ne _ _ _ _ h,
            lookupRecord, Ne.symm h]
      | some pd =>
          simp [saveProgress, readStoredRecord, lookupRecord_setRecord_ne _ _ _ _ h]

/-- Witness for C6's theorem at a concrete input. -/
theorem c6_witness :
    "grade1_intensive_2" ≠ grade1_intensive_1.id
    ∧ readStoredRecord (saveProgress true grade1_intensive_1 "intensive" 10 "t1" 5 false
          (some [("grade1_intensive_2", ⟨3, 8, false, "t0", "Simple Stories", "intensive"⟩)])).2
        "grade1_intensive_2"
      = readStoredRecord
          (some [("grade1_intensive_2", ⟨3, 8, false, "t0", "Simple Stories", "intensive"⟩)])
          "grade1_intensive_2" :=
  ⟨by decide,
   c6_saveProgress_frame true grade1_intensive_1 "intensive" 10 "t1" 5 false
     (some [("grade1_intensive_2", ⟨3, 8, false, "t0", "Simple Stories", "intensive"⟩)])
     "grade1_intensive_2" (by decide)⟩

/-! ## Claim C7 -/

/-- Claim C7: for every valid page (`1 ≤ page ≤ totalPages`), a page update
followed by re-reading the stored mapping yields a record for the book with
`currentPage = page`. -/
theorem c7_page_update_read_back (book : Book) (bookType : String) (totalPages : Nat)
    (now : String) (page : Nat) (item : Option GradeProgress)
    (h1 : 1 ≤ page) (h2 : page ≤ totalPages) :
    ∃ r, readStoredRecord (handlePageUpdate true book bookType totalPages now page item).2
          book.id = some r
        ∧ r.currentPage = page :=
  ⟨_, handlePageUpdate_valid_store book bookType totalPages now page item h1 h2, rfl⟩

/-- Witness for C7's theorem at a concrete input. -/
theorem c7_witness :
    (1:Nat) ≤ 4 ∧ (4:Nat) ≤ 12
    ∧ ∃ r, readStoredRecord (handlePageUpdate true grade2_intensive_1 "intensive" 12 "t1" 4
          none).2 "grade2_intensive_1" = some r
        ∧ r.currentPage = 4 :=
  ⟨by decide, by decide,
   c7_page_update_read_back grade2_intensive_1 "intensive" 12 "t1" 4 none
     (by decide) (by decide)⟩

/-! ## Claim C8 -/

/-- Claim C8's last clause, as stated, is false on the code: reset is not the
only path that sets `completed` back to false — a valid page update below the
last page on "Simple Stories" (8 pages) also clears a previously-true
`completed` flag, and that update is not the reset operation (its stored
result is a non-empty mapping, not the cleared one). -/
theorem c8_counterexample :
    (readStoredRecord
        (some [("grade1_intensive_2", ⟨8, 8, true, "t0", "Simple Stories", "intensive"⟩)])
        "grade1_intensive_2").map ProgressRecord.completed = some true
    ∧ (readStoredRecord
        (handlePageUpdate true grade1_intensive_2 "intensive" 8 "t1" 3
          (some [("grade1_intensive_2", ⟨8, 8, true, "t0", "Simple Stories", "intensive"⟩)])).2
        "grade1_intensive_2").map ProgressRecord.completed = some false
    ∧ (handlePageUpdate true grade1_intensive_2 "intensive" 8 "t1" 3
          (some [("grade1_intensive_2", ⟨8, 8, true, "t0", "Simple Stories", "intensive"⟩)])).2
      ≠ handleResetProgress
          (some [("grade1_intensive_2", ⟨8, 8, true, "t0", "Simple Stories", "intensive"⟩)]) := by
  decide

/-- Claim C8 (corrected): reset followed by reading the grade's progress
yields the empty mapping (no record for any book id), and the tier-unlock
check afterwards returns false, the same value as for a grade with no
history; but reset is not the only path that may clear `completed` — a valid
page update below the last page also does. -/
theorem c8_reset_empties (grade : Nat) (item : Option GradeProgress) (bookId : String) :
    readStoredRecord (handleResetProgress item) bookId = none
    ∧ checkExtensiveLearningStatus false grade (handleResetProgress item) = .fulfilled false
    ∧ checkExtensiveLearningStatus false grade none = .fulfilled false :=
  ⟨rfl, rfl, rfl⟩

/-! ## Claim C9 -/

/-- Claim C9: `totalPagesRead` is the sum of `currentPage` over all stored
records; overwriting one book's record exchanges exactly its contribution
(so re-reading does not double count), and moving a book's `currentPage`
backward strictly decreases the total. -/
theorem c9_total_pages_read (p : GradeProgress) (k : String) (r r' : ProgressRecord)
    (h : lookupRecord p k = some r) :
    totalPagesRead p = (p.map fun kv => kv.2.currentPage).sum
    ∧ totalPagesRead (setRecord p k r') + r.currentPage
        = totalPagesRead p + r'.currentPage
    ∧ (r'.currentPage < r.currentPage →
        totalPagesRead (setRecord p k r') < totalPagesRead p) := by
  refine ⟨totalPagesRead_eq_sum p, totalPagesRead_setRecord p k r r' h, ?_⟩
  intro hlt
  have hx := totalPagesRead_setRecord p k r r' h
  omega

/-- Witness for C9's theorem at a concrete input. -/
theorem c9_witness :
    lookupRecord
        [("grade1_intensive_1", ⟨5, 10, false, "t0", "The Cat and the Hat", "intensive"⟩)]
        "grade1_intensive_1"
      = some ⟨5, 10, false, "t0", "The Cat and the Hat", "intensive"⟩
    ∧ totalPagesRead (setRecord
          [("grade1_intensive_1", ⟨5, 10, false, "t0", "The Cat and the Hat", "intensive"⟩)]
          "grade1_intensive_1" ⟨3, 10, false, "t1", "The Cat and the Hat", "intensive"⟩)
        < totalPagesRead
            [("grade1_intensive_1", ⟨5, 10, false, "t0", "The Cat and the Hat", "intensive"⟩)] :=
  ⟨by decide,
   (c9_total_pages_read
      [("grade1_intensive_1", ⟨5, 10, false, "t0", "The Cat and the Hat", "intensive"⟩)]
      "grade1_intensive_1"
      ⟨5, 10, false, "t0", "The Cat and the Hat", "intensive"⟩
      ⟨3, 10, false, "t1", "The Cat and the Hat", "intensive"⟩
      (by decide)).2.2 (by decide)⟩

/-! ## Claim C10 -/

/-- Claim C10: when reading or parsing the stored progress fails, the
tier-unlock check fails closed — it returns false (the promise fulfills with
false) rather than rejecting or unlocking. -/
theorem c10_unlock_fails_closed (grade : Nat) (item : Option GradeProgress) :
    checkExtensiveLearningStatus true grade item = .fulfilled false := rfl

end MobileReadingApp
